import Mathlib

/-!
Verification development for the single-flight initializer `InitWatcher<T>` of
`src/modules/desktop/electron/libs/initialize.ts`.

The TypeScript class keeps three fields: `initState` (one of the string tags
`NOT_INITIALIZED`, `PENDING`, `INITIALIZED`), `initFunction` (the producer),
and `initializationPromise` (the single shared promise handle).  We embed its
behaviour as a small-step operational semantics over explicit configurations,
faithful to the JavaScript event loop:

* a producer invocation is an asynchronous call whose eventual outcome is given
  by an oracle `Nat → Except E T`; invocation number `i` (in order of start)
  yields `oracle i`;
* `initialize()` runs synchronously up to its `return`: when the state is
  `NOT_INITIALIZED` it sets the state to `PENDING`, starts
  `retryFunction(initFunction, 3)` (whose first producer invocation begins
  immediately), attaches the `.then`/`.catch` handlers and stores the promise;
  in every state it then hands the caller the *current* value of
  `initializationPromise` (possibly `undefined`, because of the unchecked
  `as Promise<T>` cast in the source);
* the settlement of the producer invocation an attempt is awaiting is a
  scheduler event (`Action.complete`): on success the attempt's promise
  resolves and the `.then` handler sets the state to `INITIALIZED`; on failure
  with `currentAttempt < 3` the next producer invocation starts at once
  (line 46 of the source); on exhaustion the `.catch` handler sets the state to
  `NOT_INITIALIZED`, clears `initializationPromise` and rethrows the last error
  verbatim.  The handlers mutate whatever the fields hold at settlement time,
  exactly as the closures in the source do;
* `reset()` overwrites the two fields and nothing else; in particular it does
  not cancel an in-flight attempt, whose handlers will still fire later.
-/

namespace Ossapp

deriving instance DecidableEq for Except

/-- The three values of the `InitState` union type of the source. -/
inductive InitState : Type where
  | NOT_INITIALIZED : InitState
  | PENDING : InitState
  | INITIALIZED : InitState
deriving DecidableEq, Repr

/-- One in-flight run of `retryFunction`: `attemptNum` is the source's
`currentAttempt` counter and `awaiting` is the global index of the producer
invocation whose settlement the run is suspended on (`await func()`). -/
structure Attempt : Type where
  attemptNum : Nat
  awaiting : Nat
deriving DecidableEq, Repr

/-- A configuration of the watcher together with the surrounding event loop.
`initState` and `initializationPromise` are the two mutable fields of the
class (`initializationPromise` is `Option` because the source declares it
`Promise<T> | undefined`; we name promises by the id of the attempt that
settles them).  `inflight` maps attempt ids to their suspended `retryFunction`
run, `settled` records each settled attempt's outcome, `waiters` records which
promise handle each caller of `initialize()`/`observe()` was handed (with
`none` standing for the JavaScript value `undefined`), `nextId` supplies fresh
attempt ids and `invocations` counts producer invocations started so far. -/
structure Config (T E : Type) : Type where
  initState : InitState
  initializationPromise : Option Nat
  inflight : List (Nat × Attempt)
  settled : List (Nat × Except E T)
  waiters : List (Nat × Option Nat)
  nextId : Nat
  invocations : Nat
deriving DecidableEq, Repr

variable {T E : Type}

namespace InitWatcher

/-- Embeds the synchronous part of `initialize()` (source lines 22–38) as run
by caller `c`: in state `NOT_INITIALIZED` it moves to `PENDING`, starts a fresh
attempt (whose first producer invocation begins immediately) and stores its
promise; in every state the caller is handed the current
`initializationPromise`.  (The name `initialize` itself is a Lean keyword, so
the definition carries the suffix `Fn`.) -/
def initializeFn (cfg : Config T E) (c : Nat) : Config T E :=
  if cfg.initState = InitState.NOT_INITIALIZED then
    { cfg with
      initState := InitState.PENDING
      initializationPromise := some cfg.nextId
      inflight := (cfg.nextId, ⟨1, cfg.invocations⟩) :: cfg.inflight
      waiters := (c, some cfg.nextId) :: cfg.waiters
      nextId := cfg.nextId + 1
      invocations := cfg.invocations + 1 }
  else
    { cfg with waiters := (c, cfg.initializationPromise) :: cfg.waiters }

/-- Embeds `observe()` (source lines 58–60): it does nothing but delegate to
`initialize()` and forward its result unchanged. -/
def observe (cfg : Config T E) (c : Nat) : Config T E :=
  initializeFn cfg c

/-- Embeds `reset()` (source lines 53–56): overwrite the two fields,
touching nothing else (in particular no in-flight attempt is cancelled). -/
def reset (cfg : Config T E) : Config T E :=
  { cfg with
    initState := InitState.NOT_INITIALIZED
    initializationPromise := none }

/-- Embeds `getState()` (source lines 62–64): a pure read of `initState`. -/
def getState (cfg : Config T E) : InitState :=
  cfg.initState

/-- Embeds `retryFunction` (source lines 40–51) as a pure function.  The
producer `func` is the oracle of invocation outcomes and `idx` is the index of
the next producer invocation to start; the result pairs the outcome of the
whole run with the next free invocation index, so the number of invocations
performed is the returned index minus `idx`.  `retries` and `currentAttempt`
are `Int` because the source's `number` arguments may be zero or negative. -/
def retryFunction (func : Nat → Except E T) (retries currentAttempt : Int) (idx : Nat) :
    Except E T × Nat :=
  match func idx with
  | Except.ok result => (Except.ok result, idx + 1)
  | Except.error err =>
    if h : currentAttempt < retries then
      retryFunction func retries (currentAttempt + 1) (idx + 1)
    else
      (Except.error err, idx + 1)
termination_by (retries - currentAttempt).toNat
decreasing_by
  simp_wf
  omega

end InitWatcher

/-- The settlement of the producer invocation that in-flight attempt `id` is
awaiting, together with the synchronous code it unblocks.  On success the
`.then` handler of source lines 26–29 sets the state to `INITIALIZED`; on a
failure with `currentAttempt < 3` (the bound passed at source line 25) the
recursive call at line 46 starts the next producer invocation immediately; on
exhaustion the `.catch` handler of lines 30–34 sets the state to
`NOT_INITIALIZED`, clears `initializationPromise` and rejects the attempt's
promise with the final error, unmodified.  If `id` is not in flight the event
is not enabled and nothing happens. -/
def completeStep (oracle : Nat → Except E T) (cfg : Config T E) (id : Nat) : Config T E :=
  match cfg.inflight.lookup id with
  | none => cfg
  | some att =>
    match oracle att.awaiting with
    | Except.ok v =>
      { cfg with
        inflight := cfg.inflight.filter (fun p => p.1 != id)
        settled := (id, Except.ok v) :: cfg.settled
        initState := InitState.INITIALIZED }
    | Except.error e =>
      if att.attemptNum < 3 then
        { cfg with
          inflight := cfg.inflight.map
            (fun p => if p.1 = id then (id, ⟨att.attemptNum + 1, cfg.invocations⟩) else p)
          invocations := cfg.invocations + 1 }
      else
        { cfg with
          inflight := cfg.inflight.filter (fun p => p.1 != id)
          settled := (id, Except.error e) :: cfg.settled
          initState := InitState.NOT_INITIALIZED
          initializationPromise := none }

/-- The events an execution interleaves: a caller invoking
`initialize()`/`observe()`, a call to `reset()`, and the settlement of the
producer invocation attempt `id` is awaiting. -/
inductive Action : Type where
  | call : Nat → Action
  | reset : Action
  | complete : Nat → Action
deriving DecidableEq, Repr

/-- One scheduler step. -/
def step (oracle : Nat → Except E T) (cfg : Config T E) : Action → Config T E
  | Action.call c => InitWatcher.initializeFn cfg c
  | Action.reset => InitWatcher.reset cfg
  | Action.complete id => completeStep oracle cfg id

/-- The configuration right after the constructor (source lines 16–20). -/
def initConfig : Config T E :=
  { initState := InitState.NOT_INITIALIZED
    initializationPromise := none
    inflight := []
    settled := []
    waiters := []
    nextId := 0
    invocations := 0 }

/-- Run a list of actions from a configuration. -/
def run (oracle : Nat → Except E T) (cfg : Config T E) (acts : List Action) : Config T E :=
  acts.foldl (step oracle) cfg

/-- What a caller holding promise handle `h` eventually receives: awaiting the
JavaScript value `undefined` yields `undefined`, awaiting a settled attempt's
promise yields its outcome, awaiting an unsettled one yields nothing yet. -/
inductive CallResult (T E : Type) : Type where
  | undef : CallResult T E
  | ok : T → CallResult T E
  | err : E → CallResult T E
deriving DecidableEq, Repr

/-- Resolve a promise handle against the settled outcomes of `cfg`. -/
def resultForHandle (cfg : Config T E) : Option Nat → Option (CallResult T E)
  | none => some CallResult.undef
  | some id =>
    match cfg.settled.lookup id with
    | none => none
    | some (Except.ok v) => some (CallResult.ok v)
    | some (Except.error e) => some (CallResult.err e)

/-- The value caller `c` receives from its most recent
`initialize()`/`observe()` call, once available. -/
def callerResult (cfg : Config T E) (c : Nat) : Option (CallResult T E) :=
  match cfg.waiters.lookup c with
  | none => none
  | some h => resultForHandle cfg h

/-- The caller ids of the `call` actions of a trace, in order. -/
def callsOf : List Action → List Nat :=
  List.filterMap (fun a =>
    match a with
    | Action.call c => some c
    | _ => none)

/-- Executions in which `reset()` is only ever invoked while no attempt is in
flight (the discipline under which the spec's state-machine reading of the
watcher is accurate). -/
inductive SafeRun (oracle : Nat → Except E T) :
    Config T E → List Action → Config T E → Prop where
  | nil (cfg : Config T E) : SafeRun oracle cfg [] cfg
  | call (cfg cfg' : Config T E) (c : Nat) (acts : List Action)
      (h : SafeRun oracle (InitWatcher.initializeFn cfg c) acts cfg') :
      SafeRun oracle cfg (Action.call c :: acts) cfg'
  | complete (cfg cfg' : Config T E) (id : Nat) (acts : List Action)
      (h : SafeRun oracle (completeStep oracle cfg id) acts cfg') :
      SafeRun oracle cfg (Action.complete id :: acts) cfg'
  | reset (cfg cfg' : Config T E) (acts : List Action)
      (hq : cfg.inflight = [])
      (h : SafeRun oracle (InitWatcher.reset cfg) acts cfg') :
      SafeRun oracle cfg (Action.reset :: acts) cfg'

/-- The bookkeeping invariant tying `initState` to the other fields: when
`NOT_INITIALIZED` there is no promise and nothing in flight, when `PENDING`
the stored promise is the unique in-flight attempt's, and when `INITIALIZED`
the stored promise belongs to an attempt settled with a value. -/
structure Inv (cfg : Config T E) : Prop where
  not_init : cfg.initState = InitState.NOT_INITIALIZED →
    cfg.initializationPromise = none ∧ cfg.inflight = []
  pending : cfg.initState = InitState.PENDING →
    ∃ id att, cfg.initializationPromise = some id ∧ cfg.inflight = [(id, att)]
  initialized : cfg.initState = InitState.INITIALIZED →
    ∃ id v, cfg.initializationPromise = some id ∧ cfg.inflight = [] ∧
      cfg.settled.lookup id = some (Except.ok v)

/-- A producer whose every invocation succeeds with `42`. -/
def okOracle : Nat → Except Nat Nat := fun _ => Except.ok 42

/-- A producer whose invocation `i` fails with error `i`. -/
def failOracle : Nat → Except Nat Nat := fun i => Except.error i

/-- A producer whose second invocation (index 1) succeeds and whose other
invocations fail with error `7`. -/
def mixedOracle : Nat → Except Nat Nat :=
  fun i => if i = 1 then Except.ok 42 else Except.error 7

/-- A producer that fails on invocations 0 and 1 and succeeds from then on. -/
def failTwiceOracle : Nat → Except Nat Nat :=
  fun i => if i < 2 then Except.error 7 else Except.ok 42

/-! ### Basic lemmas about `run` -/

theorem run_nil (oracle : Nat → Except E T) (cfg : Config T E) :
    run oracle cfg [] = cfg := rfl

theorem run_cons (oracle : Nat → Except E T) (cfg : Config T E) (a : Action)
    (acts : List Action) :
    run oracle cfg (a :: acts) = run oracle (step oracle cfg a) acts := rfl

theorem run_append (oracle : Nat → Except E T) (cfg : Config T E)
    (acts₁ acts₂ : List Action) :
    run oracle cfg (acts₁ ++ acts₂) = run oracle (run oracle cfg acts₁) acts₂ :=
  List.foldl_append (step oracle) cfg acts₁ acts₂

/-! ### Unfolding lemmas for the two step functions -/

theorem initializeFn_start (cfg : Config T E) (c : Nat)
    (hs : cfg.initState = InitState.NOT_INITIALIZED) :
    InitWatcher.initializeFn cfg c =
      { cfg with
        initState := InitState.PENDING
        initializationPromise := some cfg.nextId
        inflight := (cfg.nextId, ⟨1, cfg.invocations⟩) :: cfg.inflight
        waiters := (c, some cfg.nextId) :: cfg.waiters
        nextId := cfg.nextId + 1
        invocations := cfg.invocations + 1 } := by
  simp [InitWatcher.initializeFn, hs]

theorem initializeFn_join (cfg : Config T E) (c : Nat)
    (hs : cfg.initState ≠ InitState.NOT_INITIALIZED) :
    InitWatcher.initializeFn cfg c =
      { cfg with waiters := (c, cfg.initializationPromise) :: cfg.waiters } := by
  simp [InitWatcher.initializeFn, hs]

theorem completeStep_none (oracle : Nat → Except E T) (cfg : Config T E) (id : Nat)
    (hl : cfg.inflight.lookup id = none) :
    completeStep oracle cfg id = cfg := by
  simp [completeStep, hl]

theorem completeStep_ok (oracle : Nat → Except E T) (cfg : Config T E) (id : Nat)
    (att : Attempt) (v : T) (hl : cfg.inflight.lookup id = some att)
    (hor : oracle att.awaiting = Except.ok v) :
    completeStep oracle cfg id =
      { cfg with
        inflight := cfg.inflight.filter (fun p => p.1 != id)
        settled := (id, Except.ok v) :: cfg.settled
        initState := InitState.INITIALIZED } := by
  simp [completeStep, hl, hor]

theorem completeStep_retry (oracle : Nat → Except E T) (cfg : Config T E) (id : Nat)
    (att : Attempt) (e : E) (hl : cfg.inflight.lookup id = some att)
    (hor : oracle att.awaiting = Except.error e) (hatt : att.attemptNum < 3) :
    completeStep oracle cfg id =
      { cfg with
        inflight := cfg.inflight.map
          (fun p => if p.1 = id then (id, ⟨att.attemptNum + 1, cfg.invocations⟩) else p)
        invocations := cfg.invocations + 1 } := by
  simp [completeStep, hl, hor, hatt]

theorem completeStep_exhaust (oracle : Nat → Except E T) (cfg : Config T E) (id : Nat)
    (att : Attempt) (e : E) (hl : cfg.inflight.lookup id = some att)
    (hor : oracle att.awaiting = Except.error e) (hatt : ¬ att.attemptNum < 3) :
    completeStep oracle cfg id =
      { cfg with
        inflight := cfg.inflight.filter (fun p => p.1 != id)
        settled := (id, Except.error e) :: cfg.settled
        initState := InitState.NOT_INITIALIZED
        initializationPromise := none } := by
  simp [completeStep, hl, hor, hatt]

theorem lookup_singleton {α β : Type} [BEq α] [LawfulBEq α] {a b : α} {x y : β}
    (h : List.lookup a [(b, x)] = some y) : a = b ∧ y = x := by
  by_cases hab : a == b
  · simp only [List.lookup, hab, List.lookup_nil] at h
    exact ⟨eq_of_beq hab, (Option.some.inj h).symm⟩
  · simp only [List.lookup, Bool.not_eq_true] at hab
    simp [List.lookup, hab] at h

/-! ### Unfolding lemmas for `retryFunction` -/

theorem retryFunction_ok (func : Nat → Except E T) (retries currentAttempt : Int)
    (idx : Nat) (v : T) (hf : func idx = Except.ok v) :
    InitWatcher.retryFunction func retries currentAttempt idx = (Except.ok v, idx + 1) := by
  rw [InitWatcher.retryFunction]
  simp [hf]

theorem retryFunction_error_lt (func : Nat → Except E T) (retries currentAttempt : Int)
    (idx : Nat) (e : E) (hf : func idx = Except.error e)
    (hlt : currentAttempt < retries) :
    InitWatcher.retryFunction func retries currentAttempt idx
      = InitWatcher.retryFunction func retries (currentAttempt + 1) (idx + 1) := by
  rw [InitWatcher.retryFunction]
  simp [hf, hlt]

theorem retryFunction_error_ge (func : Nat → Except E T) (retries currentAttempt : Int)
    (idx : Nat) (e : E) (hf : func idx = Except.error e)
    (hge : ¬ currentAttempt < retries) :
    InitWatcher.retryFunction func retries currentAttempt idx = (Except.error e, idx + 1) := by
  rw [InitWatcher.retryFunction]
  simp [hf, hge]

theorem retryFunction_always_fails (func : Nat → Except E T) (es : Nat → E)
    (hf : ∀ i, func i = Except.error (es i)) :
    ∀ (k : Nat) (retries currentAttempt : Int) (idx : Nat),
      (retries - currentAttempt).toNat = k →
      InitWatcher.retryFunction func retries currentAttempt idx
        = (Except.error (es (idx + k)), idx + k + 1) := by
  intro k
  induction k with
  | zero =>
    intro retries currentAttempt idx hk
    have hge : ¬ currentAttempt < retries := by omega
    simpa using
      retryFunction_error_ge func retries currentAttempt idx (es idx) (hf idx) hge
  | succ k ih =>
    intro retries currentAttempt idx hk
    have hlt : currentAttempt < retries := by omega
    rw [retryFunction_error_lt func retries currentAttempt idx (es idx) (hf idx) hlt]
    have hk' : (retries - (currentAttempt + 1)).toNat = k := by omega
    rw [ih retries (currentAttempt + 1) (idx + 1) hk']
    have harith : idx + 1 + k = idx + (k + 1) := by omega
    rw [harith]

/-! ### The bookkeeping invariant under safe executions -/

theorem inv_initConfig : Inv (initConfig : Config T E) := by
  refine ⟨fun _ => ⟨rfl, rfl⟩, fun h => ?_, fun h => ?_⟩ <;> cases h

theorem pending_of_inflight_lookup (cfg : Config T E) (id : Nat) (att : Attempt)
    (h : Inv cfg) (hl : cfg.inflight.lookup id = some att) :
    cfg.initState = InitState.PENDING := by
  match hstate : cfg.initState with
  | InitState.NOT_INITIALIZED =>
    obtain ⟨_, hq⟩ := h.not_init hstate
    rw [hq] at hl
    simp at hl
  | InitState.PENDING => rfl
  | InitState.INITIALIZED =>
    obtain ⟨_, _, _, hq, _⟩ := h.initialized hstate
    rw [hq] at hl
    simp at hl

theorem inv_initializeFn (cfg : Config T E) (c : Nat) (h : Inv cfg) :
    Inv (InitWatcher.initializeFn cfg c) := by
  by_cases hs : cfg.initState = InitState.NOT_INITIALIZED
  · obtain ⟨hp, hq⟩ := h.not_init hs
    rw [initializeFn_start cfg c hs]
    refine ⟨fun hc => by simp at hc, fun _ => ?_, fun hc => by simp at hc⟩
    exact ⟨cfg.nextId, ⟨1, cfg.invocations⟩, by simp, by simp [hq]⟩
  · rw [initializeFn_join cfg c hs]
    refine ⟨fun hc => ?_, fun hc => ?_, fun hc => ?_⟩
    · obtain ⟨hp, hq⟩ := h.not_init (by simpa using hc)
      exact ⟨by simpa using hp, by simpa using hq⟩
    · obtain ⟨id, att, hp, hq⟩ := h.pending (by simpa using hc)
      exact ⟨id, att, by simpa using hp, by simpa using hq⟩
    · obtain ⟨id, v, hp, hq, hset⟩ := h.initialized (by simpa using hc)
      exact ⟨id, v, by simpa using hp, by simpa using hq, by simpa using hset⟩

theorem inv_completeStep (oracle : Nat → Except E T) (cfg : Config T E) (id : Nat)
    (h : Inv cfg) : Inv (completeStep oracle cfg id) := by
  match hl : cfg.inflight.lookup id with
  | none =>
    rw [completeStep_none oracle cfg id hl]
    exact h
  | some att =>
    have hs : cfg.initState = InitState.PENDING := pending_of_inflight_lookup cfg id att h hl
    obtain ⟨id₀, att₀, hp, hq⟩ := h.pending hs
    rw [hq] at hl
    obtain ⟨hide, hatte⟩ := lookup_singleton hl
    subst hide
    subst hatte
    match hor : oracle att.awaiting with
    | Except.ok v =>
      rw [completeStep_ok oracle cfg id att v (by rw [hq]; simp [List.lookup]) hor]
      refine ⟨fun hc => by simp at hc, fun hc => by simp at hc, fun _ => ?_⟩
      exact ⟨id, v, by simpa using hp, by simp [hq], by simp [List.lookup]⟩
    | Except.error e =>
      by_cases hatt : att.attemptNum < 3
      · rw [completeStep_retry oracle cfg id att e (by rw [hq]; simp [List.lookup]) hor hatt]
        refine ⟨fun hc => by simp [hs] at hc, fun _ => ?_, fun hc => by simp [hs] at hc⟩
        exact ⟨id, ⟨att.attemptNum + 1, cfg.invocations⟩, by simpa using hp, by simp [hq]⟩
      · rw [completeStep_exhaust oracle cfg id att e (by rw [hq]; simp [List.lookup]) hor hatt]
        refine ⟨fun _ => ⟨by simp, by simp [hq]⟩, fun hc => by simp at hc,
          fun hc => by simp at hc⟩

theorem inv_reset_of_empty (cfg : Config T E) (hq : cfg.inflight = []) :
    Inv (InitWatcher.reset cfg) := by
  refine ⟨fun _ => ⟨by simp [InitWatcher.reset], by simpa [InitWatcher.reset] using hq⟩,
    fun hc => ?_, fun hc => ?_⟩ <;> simp [InitWatcher.reset] at hc

theorem safeRun_inv (oracle : Nat → Except E T) (cfg cfg' : Config T E)
    (acts : List Action) (hr : SafeRun oracle cfg acts cfg') (h : Inv cfg) : Inv cfg' := by
  induction hr with
  | nil _ => exact h
  | call _ _ c _ _ ih => exact ih (inv_initializeFn _ c h)
  | complete _ _ id _ _ ih => exact ih (inv_completeStep oracle _ id h)
  | reset _ _ _ hq _ ih => exact ih (inv_reset_of_empty _ hq)

theorem resetFree_safeRun (oracle : Nat → Except E T) (cfg : Config T E)
    (acts : List Action) (hfree : Action.reset ∉ acts) :
    SafeRun oracle cfg acts (run oracle cfg acts) := by
  induction acts generalizing cfg with
  | nil => exact SafeRun.nil cfg
  | cons a acts ih =>
    have hna : a ≠ Action.reset := fun h => hfree (h ▸ List.mem_cons_self a acts)
    have hfree' : Action.reset ∉ acts := fun h => hfree (List.mem_cons_of_mem a h)
    match a with
    | Action.call c => exact SafeRun.call _ _ c _ (ih _ hfree')
    | Action.complete id => exact SafeRun.complete _ _ id _ (ih _ hfree')
    | Action.reset => exact absurd rfl hna

/-! ### Blocks of consecutive calls -/

theorem run_calls_pending (oracle : Nat → Except E T) (cfg : Config T E) (cs : List Nat)
    (hs : cfg.initState = InitState.PENDING) :
    run oracle cfg (cs.map Action.call) =
      { cfg with waiters :=
          cs.reverse.map (fun c => (c, cfg.initializationPromise)) ++ cfg.waiters } := by
  induction cs generalizing cfg with
  | nil => rfl
  | cons c cs ih =>
    have hne : cfg.initState ≠ InitState.NOT_INITIALIZED := by
      rw [hs]
      intro hc
      cases hc
    have h1 : run oracle cfg ((c :: cs).map Action.call)
        = run oracle (InitWatcher.initializeFn cfg c) (cs.map Action.call) := rfl
    rw [h1, initializeFn_join cfg c hne, ih _ (by simpa using hs)]
    simp

theorem lookup_mapped_block (h : Option Nat) (l : List Nat)
    (ws : List (Nat × Option Nat)) (c : Nat) (hc : c ∈ l) :
    List.lookup c (l.map (fun x => (x, h)) ++ ws) = some h := by
  induction l with
  | nil => cases hc
  | cons a l ih =>
    by_cases hca : c = a
    · subst hca
      simp [List.lookup]
    · have hmem : c ∈ l := by
        rcases List.mem_cons.mp hc with h₁ | h₁
        · exact absurd h₁ hca
        · exact h₁
      have hb : (c == a) = false := beq_eq_false_iff_ne.mpr hca
      simp [List.lookup, hb, ih hmem]

theorem callerResult_eq_of_lookup (cfg : Config T E) (c₁ c₂ : Nat) (h : Option Nat)
    (h₁ : cfg.waiters.lookup c₁ = some h) (h₂ : cfg.waiters.lookup c₂ = some h) :
    callerResult cfg c₁ = callerResult cfg c₂ := by
  simp [callerResult, h₁, h₂]

/-! ### Claim theorems -/

theorem run_calls_start (oracle : Nat → Except E T) (cfg : Config T E)
    (c₀ : Nat) (cs' : List Nat) (hs : cfg.initState = InitState.NOT_INITIALIZED) :
    run oracle cfg ((c₀ :: cs').map Action.call) =
      { cfg with
        initState := InitState.PENDING
        initializationPromise := some cfg.nextId
        inflight := (cfg.nextId, ⟨1, cfg.invocations⟩) :: cfg.inflight
        waiters := ((cs'.reverse ++ [c₀]).map (fun x => (x, some cfg.nextId))) ++ cfg.waiters
        nextId := cfg.nextId + 1
        invocations := cfg.invocations + 1 } := by
  have h1 : run oracle cfg ((c₀ :: cs').map Action.call)
      = run oracle (InitWatcher.initializeFn cfg c₀) (cs'.map Action.call) := rfl
  rw [h1, initializeFn_start cfg c₀ hs, run_calls_pending oracle _ cs' (by simp)]
  simp

/-- C1: any block of `N ≥ 1` concurrent callers invoking
`observe()`/`initialize()` while the state is `NOT_INITIALIZED` or `PENDING`
(that is, consecutively, with no producer completion processed in between)
starts at most one new producer invocation — a single attempt serves the whole
block — and every caller of the block is handed one and the same promise
handle, so all of them receive the identical resolved value or the identical
error. -/
theorem c1_single_flight (oracle : Nat → Except E T) (cfg : Config T E) (cs : List Nat)
    (hne : cs ≠ [])
    (hs : cfg.initState = InitState.NOT_INITIALIZED ∨ cfg.initState = InitState.PENDING) :
    (run oracle cfg (cs.map Action.call)).invocations ≤ cfg.invocations + 1 ∧
    ∃ h, (∀ c ∈ cs, (run oracle cfg (cs.map Action.call)).waiters.lookup c = some h) ∧
      ∀ c₁ ∈ cs, ∀ c₂ ∈ cs,
        callerResult (run oracle cfg (cs.map Action.call)) c₁ =
          callerResult (run oracle cfg (cs.map Action.call)) c₂ := by
  have key : (run oracle cfg (cs.map Action.call)).invocations ≤ cfg.invocations + 1 ∧
      ∃ h, ∀ c ∈ cs, (run oracle cfg (cs.map Action.call)).waiters.lookup c = some h := by
    rcases hs with hs | hs
    · match cs, hne with
      | c₀ :: cs', _ =>
        rw [run_calls_start oracle cfg c₀ cs' hs]
        refine ⟨by simp, some cfg.nextId, fun c hc => ?_⟩
        refine lookup_mapped_block (some cfg.nextId) (cs'.reverse ++ [c₀]) cfg.waiters c ?_
        rcases List.mem_cons.mp hc with h₁ | h₁
        · simp [h₁]
        · simp [h₁]
    · rw [run_calls_pending oracle cfg cs hs]
      refine ⟨by simp, cfg.initializationPromise, fun c hc => ?_⟩
      exact lookup_mapped_block cfg.initializationPromise cs.reverse cfg.waiters c
        (List.mem_reverse.mpr hc)
  obtain ⟨hinv, h, hlk⟩ := key
  exact ⟨hinv, h, hlk, fun c₁ hc₁ c₂ hc₂ =>
    callerResult_eq_of_lookup _ c₁ c₂ h (hlk c₁ hc₁) (hlk c₂ hc₂)⟩

/-- Witness for C1: three concurrent callers on a fresh watcher. -/
theorem c1_single_flight_witness :
    (([0, 1, 2] : List Nat) ≠ []) ∧
    ((initConfig : Config Nat Nat).initState = InitState.NOT_INITIALIZED ∨
      (initConfig : Config Nat Nat).initState = InitState.PENDING) ∧
    ((run okOracle initConfig ([0, 1, 2].map Action.call)).invocations ≤
        (initConfig : Config Nat Nat).invocations + 1 ∧
      ∃ h, (∀ c ∈ ([0, 1, 2] : List Nat),
          (run okOracle initConfig ([0, 1, 2].map Action.call)).waiters.lookup c = some h) ∧
        ∀ c₁ ∈ ([0, 1, 2] : List Nat), ∀ c₂ ∈ ([0, 1, 2] : List Nat),
          callerResult (run okOracle initConfig ([0, 1, 2].map Action.call)) c₁ =
            callerResult (run okOracle initConfig ([0, 1, 2].map Action.call)) c₂) :=
  ⟨by decide, Or.inl rfl,
    c1_single_flight okOracle initConfig [0, 1, 2] (by decide) (Or.inl rfl)⟩

theorem mem_callsOf (t : List Action) (c : Nat) (hc : Action.call c ∈ t) :
    c ∈ callsOf t := by
  induction t with
  | nil => cases hc
  | cons a t ih =>
    match a with
    | Action.call c' =>
      rcases List.mem_cons.mp hc with h₁ | h₁
      · have : c = c' := by cases h₁; rfl
        simp [callsOf, this]
      · simpa [callsOf] using Or.inr (ih h₁)
    | Action.reset =>
      rcases List.mem_cons.mp hc with h₁ | h₁
      · cases h₁
      · simpa [callsOf] using ih h₁
    | Action.complete id =>
      rcases List.mem_cons.mp hc with h₁ | h₁
      · cases h₁
      · simpa [callsOf] using ih h₁

theorem run_frozen (oracle : Nat → Except E T) (cfg : Config T E) (t : List Action)
    (hs : cfg.initState = InitState.INITIALIZED) (hq : cfg.inflight = [])
    (hfree : Action.reset ∉ t) :
    run oracle cfg t =
      { cfg with waiters :=
          ((callsOf t).reverse.map (fun c => (c, cfg.initializationPromise))) ++
            cfg.waiters } := by
  induction t generalizing cfg with
  | nil => rfl
  | cons a t ih =>
    have hfree' : Action.reset ∉ t := fun hmem => hfree (List.mem_cons_of_mem a hmem)
    match a with
    | Action.call c =>
      have hne : cfg.initState ≠ InitState.NOT_INITIALIZED := by
        rw [hs]
        intro hc
        cases hc
      have h1 : run oracle cfg (Action.call c :: t)
          = run oracle (InitWatcher.initializeFn cfg c) t := rfl
      rw [h1, initializeFn_join cfg c hne,
        ih _ (by simpa using hs) (by simpa using hq) hfree']
      simp [callsOf]
    | Action.complete id =>
      have h1 : run oracle cfg (Action.complete id :: t)
          = run oracle (completeStep oracle cfg id) t := rfl
      rw [h1, completeStep_none oracle cfg id (by rw [hq]; simp), ih cfg hs hq hfree']
      simp [callsOf]
    | Action.reset => exact absurd (List.mem_cons_self _ _) hfree

theorem frozen_facts (oracle : Nat → Except E T) (cfg : Config T E) (t : List Action)
    (hs : cfg.initState = InitState.INITIALIZED) (hq : cfg.inflight = [])
    (hfree : Action.reset ∉ t) (id : Nat)
    (hp : cfg.initializationPromise = some id) :
    (run oracle cfg t).invocations = cfg.invocations ∧
    (run oracle cfg t).initState = InitState.INITIALIZED ∧
    (run oracle cfg t).settled = cfg.settled ∧
    ∀ c, Action.call c ∈ t →
      (run oracle cfg t).waiters.lookup c = some (some id) := by
  rw [run_frozen oracle cfg t hs hq hfree]
  refine ⟨by simp, by simpa using hs, by simp, fun c hc => ?_⟩
  simp only [hp]
  exact lookup_mapped_block (some id) (callsOf t).reverse cfg.waiters c
    (List.mem_reverse.mpr (mem_callsOf t c hc))

/-- C8: in every state, `reset()` forces `initState` to `NOT_INITIALIZED` and
discards the stored handle; invoked on a watcher on which no initialization
has ever run it is a no-op, leaving the freshly constructed configuration
(state `NOT_INITIALIZED`, no handle) unchanged. -/
theorem c8_reset_unconditional :
    (∀ (T E : Type) (cfg : Config T E),
      (InitWatcher.reset cfg).initState = InitState.NOT_INITIALIZED ∧
      (InitWatcher.reset cfg).initializationPromise = none) ∧
    (∀ (T E : Type), InitWatcher.reset (initConfig : Config T E) = initConfig) :=
  ⟨fun _ _ _ => ⟨rfl, rfl⟩, fun _ _ => rfl⟩

/-- C9: `observe()` is an exact alias of `initialize()`: on every
configuration and for every caller it produces the identical configuration,
hence the identical state transition and the identical handle (and therefore
result) for the caller.  This mirrors the source, where `observe()` merely
awaits and returns `this.initialize()`. -/
theorem c9_observe_alias :
    ∀ (T E : Type) (cfg : Config T E) (c : Nat),
      InitWatcher.observe cfg c = InitWatcher.initializeFn cfg c :=
  fun _ _ _ _ => rfl

/-- C2: with a producer that fails on its first two invocations and succeeds
on the third, `retryFunction(producer, 3)` — exactly what a single
`initialize()` call starts — succeeds after exactly 3 sequential producer
invocations, and the corresponding execution (one call, three producer
settlements, each retry starting immediately at the failure with no
intervening event) ends `INITIALIZED` with 3 producer invocations started and
the caller receiving the third attempt's value. -/
theorem c2_three_attempts (oracle : Nat → Except E T) (e₁ e₂ : E) (v : T)
    (h0 : oracle 0 = Except.error e₁) (h1 : oracle 1 = Except.error e₂)
    (h2 : oracle 2 = Except.ok v) :
    InitWatcher.retryFunction oracle 3 1 0 = (Except.ok v, 3) ∧
    (run oracle initConfig
        [Action.call 0, Action.complete 0, Action.complete 0,
         Action.complete 0]).initState = InitState.INITIALIZED ∧
    (run oracle initConfig
        [Action.call 0, Action.complete 0, Action.complete 0,
         Action.complete 0]).invocations = 3 ∧
    callerResult (run oracle initConfig
        [Action.call 0, Action.complete 0, Action.complete 0,
         Action.complete 0]) 0 = some (CallResult.ok v) := by
  have s1 : InitWatcher.initializeFn (initConfig : Config T E) 0
      = ⟨InitState.PENDING, some 0, [(0, ⟨1, 0⟩)], [], [(0, some 0)], 1, 1⟩ := rfl
  have s2 : completeStep oracle
        ⟨InitState.PENDING, some 0, [(0, ⟨1, 0⟩)], [], [(0, some 0)], 1, 1⟩ 0
      = ⟨InitState.PENDING, some 0, [(0, ⟨2, 1⟩)], [], [(0, some 0)], 1, 2⟩ :=
    (completeStep_retry oracle
      ⟨InitState.PENDING, some 0, [(0, ⟨1, 0⟩)], [], [(0, some 0)], 1, 1⟩
      0 ⟨1, 0⟩ e₁ rfl h0 (by norm_num)).trans rfl
  have s3 : completeStep oracle
        ⟨InitState.PENDING, some 0, [(0, ⟨2, 1⟩)], [], [(0, some 0)], 1, 2⟩ 0
      = ⟨InitState.PENDING, some 0, [(0, ⟨3, 2⟩)], [], [(0, some 0)], 1, 3⟩ :=
    (completeStep_retry oracle
      ⟨InitState.PENDING, some 0, [(0, ⟨2, 1⟩)], [], [(0, some 0)], 1, 2⟩
      0 ⟨2, 1⟩ e₂ rfl h1 (by norm_num)).trans rfl
  have s4 : completeStep oracle
        ⟨InitState.PENDING, some 0, [(0, ⟨3, 2⟩)], [], [(0, some 0)], 1, 3⟩ 0
      = ⟨InitState.INITIALIZED, some 0, [], [(0, Except.ok v)], [(0, some 0)], 1, 3⟩ :=
    (completeStep_ok oracle
      ⟨InitState.PENDING, some 0, [(0, ⟨3, 2⟩)], [], [(0, some 0)], 1, 3⟩
      0 ⟨3, 2⟩ v rfl h2).trans rfl
  have hrun : run oracle initConfig
        [Action.call 0, Action.complete 0, Action.complete 0, Action.complete 0]
      = ⟨InitState.INITIALIZED, some 0, [], [(0, Except.ok v)], [(0, some 0)], 1, 3⟩ := by
    show completeStep oracle (completeStep oracle (completeStep oracle
        (InitWatcher.initializeFn initConfig 0) 0) 0) 0 = _
    rw [s1, s2, s3, s4]
  have hretry : InitWatcher.retryFunction oracle 3 1 0 = (Except.ok v, 3) :=
    (retryFunction_error_lt oracle 3 1 0 e₁ h0 (by norm_num)).trans
      ((retryFunction_error_lt oracle 3 2 1 e₂ h1 (by norm_num)).trans
        (retryFunction_ok oracle 3 3 2 v h2))
  refine ⟨hretry, by simp [hrun], by simp [hrun],
    by simp [hrun, callerResult, resultForHandle, List.lookup]⟩

/-- Witness for C2: the producer failing on invocations 0 and 1 and
succeeding from invocation 2 on. -/
theorem c2_three_attempts_witness :
    failTwiceOracle 0 = Except.error 7 ∧
    failTwiceOracle 1 = Except.error 7 ∧
    failTwiceOracle 2 = Except.ok 42 ∧
    (InitWatcher.retryFunction failTwiceOracle 3 1 0 = (Except.ok 42, 3) ∧
      (run failTwiceOracle initConfig
          [Action.call 0, Action.complete 0, Action.complete 0,
           Action.complete 0]).initState = InitState.INITIALIZED ∧
      (run failTwiceOracle initConfig
          [Action.call 0, Action.complete 0, Action.complete 0,
           Action.complete 0]).invocations = 3 ∧
      callerResult (run failTwiceOracle initConfig
          [Action.call 0, Action.complete 0, Action.complete 0,
           Action.complete 0]) 0 = some (CallResult.ok 42)) :=
  ⟨rfl, rfl, rfl, c2_three_attempts failTwiceOracle 7 7 42 rfl rfl rfl⟩

/-- C3: with a producer that fails on every invocation, the attempt started
by one `initialize()`/`observe()` fails after exactly 3 producer invocations,
rejecting with the third invocation's error verbatim (here: the caller's
eventual result carries exactly `e₂`); `getState()` is then
`NOT_INITIALIZED` and the handle is cleared, and a subsequent `observe()` by
another caller starts a brand-new attempt that again runs a full 3-invocation
retry cycle (invocations rise from 3 to 6) and rejects with its own final
error `e₅`, while the first caller's result stays `e₂`. -/
theorem c3_failure_resets_and_retries (oracle : Nat → Except E T) (e₀ e₁ e₂ e₃ e₄ e₅ : E)
    (h0 : oracle 0 = Except.error e₀) (h1 : oracle 1 = Except.error e₁)
    (h2 : oracle 2 = Except.error e₂) (h3 : oracle 3 = Except.error e₃)
    (h4 : oracle 4 = Except.error e₄) (h5 : oracle 5 = Except.error e₅) :
    InitWatcher.retryFunction oracle 3 1 0 = (Except.error e₂, 3) ∧
    InitWatcher.getState (run oracle initConfig
        [Action.call 0, Action.complete 0, Action.complete 0, Action.complete 0])
      = InitState.NOT_INITIALIZED ∧
    (run oracle initConfig
        [Action.call 0, Action.complete 0, Action.complete 0,
         Action.complete 0]).initializationPromise = none ∧
    (run oracle initConfig
        [Action.call 0, Action.complete 0, Action.complete 0,
         Action.complete 0]).invocations = 3 ∧
    callerResult (run oracle initConfig
        [Action.call 0, Action.complete 0, Action.complete 0,
         Action.complete 0]) 0 = some (CallResult.err e₂) ∧
    (run oracle initConfig
        [Action.call 0, Action.complete 0, Action.complete 0, Action.complete 0,
         Action.call 1, Action.complete 1, Action.complete 1,
         Action.complete 1]).invocations = 6 ∧
    InitWatcher.getState (run oracle initConfig
        [Action.call 0, Action.complete 0, Action.complete 0, Action.complete 0,
         Action.call 1, Action.complete 1, Action.complete 1, Action.complete 1])
      = InitState.NOT_INITIALIZED ∧
    callerResult (run oracle initConfig
        [Action.call 0, Action.complete 0, Action.complete 0, Action.complete 0,
         Action.call 1, Action.complete 1, Action.complete 1,
         Action.complete 1]) 1 = some (CallResult.err e₅) ∧
    callerResult (run oracle initConfig
        [Action.call 0, Action.complete 0, Action.complete 0, Action.complete 0,
         Action.call 1, Action.complete 1, Action.complete 1,
         Action.complete 1]) 0 = some (CallResult.err e₂) := by
  have s1 : InitWatcher.initializeFn (initConfig : Config T E) 0
      = ⟨InitState.PENDING, some 0, [(0, ⟨1, 0⟩)], [], [(0, some 0)], 1, 1⟩ := rfl
  have s2 : completeStep oracle
        ⟨InitState.PENDING, some 0, [(0, ⟨1, 0⟩)], [], [(0, some 0)], 1, 1⟩ 0
      = ⟨InitState.PENDING, some 0, [(0, ⟨2, 1⟩)], [], [(0, some 0)], 1, 2⟩ :=
    (completeStep_retry oracle
      ⟨InitState.PENDING, some 0, [(0, ⟨1, 0⟩)], [], [(0, some 0)], 1, 1⟩
      0 ⟨1, 0⟩ e₀ rfl h0 (by norm_num)).trans rfl
  have s3 : completeStep oracle
        ⟨InitState.PENDING, some 0, [(0, ⟨2, 1⟩)], [], [(0, some 0)], 1, 2⟩ 0
      = ⟨InitState.PENDING, some 0, [(0, ⟨3, 2⟩)], [], [(0, some 0)], 1, 3⟩ :=
    (completeStep_retry oracle
      ⟨InitState.PENDING, some 0, [(0, ⟨2, 1⟩)], [], [(0, some 0)], 1, 2⟩
      0 ⟨2, 1⟩ e₁ rfl h1 (by norm_num)).trans rfl
  have s4 : completeStep oracle
        ⟨InitState.PENDING, some 0, [(0, ⟨3, 2⟩)], [], [(0, some 0)], 1, 3⟩ 0
      = ⟨InitState.NOT_INITIALIZED, none, [], [(0, Except.error e₂)],
          [(0, some 0)], 1, 3⟩ :=
    (completeStep_exhaust oracle
      ⟨InitState.PENDING, some 0, [(0, ⟨3, 2⟩)], [], [(0, some 0)], 1, 3⟩
      0 ⟨3, 2⟩ e₂ rfl h2 (by norm_num)).trans rfl
  have s5 : InitWatcher.initializeFn
        (⟨InitState.NOT_INITIALIZED, none, [], [(0, Except.error e₂)],
          [(0, some 0)], 1, 3⟩ : Config T E) 1
      = ⟨InitState.PENDING, some 1, [(1, ⟨1, 3⟩)], [(0, Except.error e₂)],
          [(1, some 1), (0, some 0)], 2, 4⟩ := rfl
  have s6 : completeStep oracle
        ⟨InitState.PENDING, some 1, [(1, ⟨1, 3⟩)], [(0, Except.error e₂)],
          [(1, some 1), (0, some 0)], 2, 4⟩ 1
      = ⟨InitState.PENDING, some 1, [(1, ⟨2, 4⟩)], [(0, Except.error e₂)],
          [(1, some 1), (0, some 0)], 2, 5⟩ :=
    (completeStep_retry oracle
      ⟨InitState.PENDING, some 1, [(1, ⟨1, 3⟩)], [(0, Except.error e₂)],
        [(1, some 1), (0, some 0)], 2, 4⟩
      1 ⟨1, 3⟩ e₃ rfl h3 (by norm_num)).trans rfl
  have s7 : completeStep oracle
        ⟨InitState.PENDING, some 1, [(1, ⟨2, 4⟩)], [(0, Except.error e₂)],
          [(1, some 1), (0, some 0)], 2, 5⟩ 1
      = ⟨InitState.PENDING, some 1, [(1, ⟨3, 5⟩)], [(0, Except.error e₂)],
          [(1, some 1), (0, some 0)], 2, 6⟩ :=
    (completeStep_retry oracle
      ⟨InitState.PENDING, some 1, [(1, ⟨2, 4⟩)], [(0, Except.error e₂)],
        [(1, some 1), (0, some 0)], 2, 5⟩
      1 ⟨2, 4⟩ e₄ rfl h4 (by norm_num)).trans rfl
  have s8 : completeStep oracle
        ⟨InitState.PENDING, some 1, [(1, ⟨3, 5⟩)], [(0, Except.error e₂)],
          [(1, some 1), (0, some 0)], 2, 6⟩ 1
      = ⟨InitState.NOT_INITIALIZED, none, [],
          [(1, Except.error e₅), (0, Except.error e₂)],
          [(1, some 1), (0, some 0)], 2, 6⟩ :=
    (completeStep_exhaust oracle
      ⟨InitState.PENDING, some 1, [(1, ⟨3, 5⟩)], [(0, Except.error e₂)],
        [(1, some 1), (0, some 0)], 2, 6⟩
      1 ⟨3, 5⟩ e₅ rfl h5 (by norm_num)).trans rfl
  have hrun4 : run oracle initConfig
        [Action.call 0, Action.complete 0, Action.complete 0, Action.complete 0]
      = ⟨InitState.NOT_INITIALIZED, none, [], [(0, Except.error e₂)],
          [(0, some 0)], 1, 3⟩ := by
    show completeStep oracle (completeStep oracle (completeStep oracle
        (InitWatcher.initializeFn initConfig 0) 0) 0) 0 = _
    rw [s1, s2, s3, s4]
  have hrun8 : run oracle initConfig
        [Action.call 0, Action.complete 0, Action.complete 0, Action.complete 0,
         Action.call 1, Action.complete 1, Action.complete 1, Action.complete 1]
      = ⟨InitState.NOT_INITIALIZED, none, [],
          [(1, Except.error e₅), (0, Except.error e₂)],
          [(1, some 1), (0, some 0)], 2, 6⟩ := by
    simp only [run_cons, run_nil, step]
    rw [s1, s2, s3, s4, s5, s6, s7, s8]
  have hretry : InitWatcher.retryFunction oracle 3 1 0 = (Except.error e₂, 3) :=
    (retryFunction_error_lt oracle 3 1 0 e₀ h0 (by norm_num)).trans
      ((retryFunction_error_lt oracle 3 2 1 e₁ h1 (by norm_num)).trans
        (retryFunction_error_ge oracle 3 3 2 e₂ h2 (by norm_num)))
  refine ⟨hretry, by simp [hrun4, InitWatcher.getState], by simp [hrun4],
    by simp [hrun4],
    by simp [hrun4, callerResult, resultForHandle, List.lookup],
    by simp [hrun8], by simp [hrun8, InitWatcher.getState],
    by simp [hrun8, callerResult, resultForHandle, List.lookup],
    by simp [hrun8, callerResult, resultForHandle, List.lookup]⟩

/-- Witness for C3: the producer failing on every invocation with error `i`
at invocation `i`. -/
theorem c3_failure_resets_and_retries_witness :
    failOracle 0 = Except.error 0 ∧
    failOracle 5 = Except.error 5 ∧
    (InitWatcher.retryFunction failOracle 3 1 0 = (Except.error 2, 3) ∧
      InitWatcher.getState (run failOracle initConfig
          [Action.call 0, Action.complete 0, Action.complete 0, Action.complete 0])
        = InitState.NOT_INITIALIZED ∧
      (run failOracle initConfig
          [Action.call 0, Action.complete 0, Action.complete 0,
           Action.complete 0]).initializationPromise = none ∧
      (run failOracle initConfig
          [Action.call 0, Action.complete 0, Action.complete 0,
           Action.complete 0]).invocations = 3 ∧
      callerResult (run failOracle initConfig
          [Action.call 0, Action.complete 0, Action.complete 0,
           Action.complete 0]) 0 = some (CallResult.err 2) ∧
      (run failOracle initConfig
          [Action.call 0, Action.complete 0, Action.complete 0, Action.complete 0,
           Action.call 1, Action.complete 1, Action.complete 1,
           Action.complete 1]).invocations = 6 ∧
      InitWatcher.getState (run failOracle initConfig
          [Action.call 0, Action.complete 0, Action.complete 0, Action.complete 0,
           Action.call 1, Action.complete 1, Action.complete 1, Action.complete 1])
        = InitState.NOT_INITIALIZED ∧
      callerResult (run failOracle initConfig
          [Action.call 0, Action.complete 0, Action.complete 0, Action.complete 0,
           Action.call 1, Action.complete 1, Action.complete 1,
           Action.complete 1]) 1 = some (CallResult.err 5) ∧
      callerResult (run failOracle initConfig
          [Action.call 0, Action.complete 0, Action.complete 0, Action.complete 0,
           Action.call 1, Action.complete 1, Action.complete 1,
           Action.complete 1]) 0 = some (CallResult.err 2)) :=
  ⟨rfl, rfl,
    c3_failure_resets_and_retries failOracle 0 1 2 3 4 5 rfl rfl rfl rfl rfl rfl⟩

/-- C4: once an `initialize()` has succeeded (state `INITIALIZED`, reached
without any `reset()`), every subsequent `initialize()`/`observe()` in a
continuation that never calls `reset()` starts no producer invocation
(`invocations` is unchanged), leaves the state `INITIALIZED`, and hands every
caller the stored promise, which is settled with the cached resolved value. -/
theorem c4_cached_after_success (oracle : Nat → Except E T) (acts t : List Action)
    (ha : Action.reset ∉ acts) (ht : Action.reset ∉ t)
    (hinit : (run oracle initConfig acts).initState = InitState.INITIALIZED) :
    ∃ id v,
      (run oracle initConfig acts).initializationPromise = some id ∧
      (run oracle initConfig acts).settled.lookup id = some (Except.ok v) ∧
      (run oracle initConfig (acts ++ t)).invocations
        = (run oracle initConfig acts).invocations ∧
      (run oracle initConfig (acts ++ t)).initState = InitState.INITIALIZED ∧
      (run oracle initConfig (acts ++ t)).settled.lookup id = some (Except.ok v) ∧
      ∀ c, Action.call c ∈ t →
        (run oracle initConfig (acts ++ t)).waiters.lookup c = some (some id) ∧
        callerResult (run oracle initConfig (acts ++ t)) c = some (CallResult.ok v) := by
  have hsafe := resetFree_safeRun oracle initConfig acts ha
  have hinv := safeRun_inv oracle initConfig (run oracle initConfig acts) acts hsafe
    inv_initConfig
  obtain ⟨id, v, hp, hq, hset⟩ := hinv.initialized hinit
  obtain ⟨hi, hs2, hst, hw⟩ :=
    frozen_facts oracle (run oracle initConfig acts) t hinit hq ht id hp
  rw [run_append]
  refine ⟨id, v, hp, hset, hi, hs2, by rw [hst]; exact hset, fun c hc => ⟨hw c hc, ?_⟩⟩
  simp [callerResult, hw c hc, resultForHandle, hst, hset]

/-- Witness for C4: a successful run followed by a late `observe()` by
caller 1, who receives the cached value without a new producer invocation. -/
theorem c4_cached_after_success_witness :
    (Action.reset ∉ [Action.call 0, Action.complete 0]) ∧
    (Action.reset ∉ [Action.call 1]) ∧
    (run okOracle initConfig [Action.call 0, Action.complete 0]).initState
      = InitState.INITIALIZED ∧
    ∃ id v,
      (run okOracle initConfig
          [Action.call 0, Action.complete 0]).initializationPromise = some id ∧
      (run okOracle initConfig
          [Action.call 0, Action.complete 0]).settled.lookup id = some (Except.ok v) ∧
      (run okOracle initConfig
          ([Action.call 0, Action.complete 0] ++ [Action.call 1])).invocations
        = (run okOracle initConfig [Action.call 0, Action.complete 0]).invocations ∧
      (run okOracle initConfig
          ([Action.call 0, Action.complete 0] ++ [Action.call 1])).initState
        = InitState.INITIALIZED ∧
      (run okOracle initConfig
          ([Action.call 0, Action.complete 0] ++ [Action.call 1])).settled.lookup id
        = some (Except.ok v) ∧
      ∀ c, Action.call c ∈ [Action.call 1] →
        (run okOracle initConfig
            ([Action.call 0, Action.complete 0] ++ [Action.call 1])).waiters.lookup c
          = some (some id) ∧
        callerResult
            (run okOracle initConfig
              ([Action.call 0, Action.complete 0] ++ [Action.call 1])) c
          = some (CallResult.ok v) :=
  ⟨by decide, by decide, by decide,
    c4_cached_after_success okOracle [Action.call 0, Action.complete 0] [Action.call 1]
      (by decide) (by decide) (by decide)⟩

/-- C5 fails on the code: start an attempt (`observe()` by caller 0), call
`reset()` while it is in flight, and let the producer succeed.  The stale
`.then` handler still runs and sets `initState` to `INITIALIZED`, although
`reset()` already cleared `initializationPromise`; the watcher now reports
`INITIALIZED` with an unset handle, and a subsequent `initialize()` by caller
1 hands out `undefined` (typed `Promise<T>` only by virtue of the unchecked
`as` cast at source line 37). -/
theorem c5_initialized_with_unset_handle :
    (run okOracle initConfig
        [Action.call 0, Action.reset, Action.complete 0]).initState
      = InitState.INITIALIZED ∧
    (run okOracle initConfig
        [Action.call 0, Action.reset, Action.complete 0]).initializationPromise
      = none ∧
    callerResult
        (InitWatcher.observe
          (run okOracle initConfig [Action.call 0, Action.reset, Action.complete 0]) 1) 1
      = some CallResult.undef := by
  decide

/-- C6 as stated is false on the code: caller 0 starts an attempt, `reset()`
is called while it is in flight (which detaches but does not cancel it), and
caller 1's `observe()` then starts a second attempt — two producer invocation
sequences are concurrently in flight. -/
theorem c6_counterexample :
    ¬ (run failOracle initConfig
        [Action.call 0, Action.reset, Action.call 1]).inflight.length ≤ 1 := by
  decide

/-- C6 amended: in every execution in which `reset()` is only invoked while no
attempt is in flight, at most one producer invocation sequence (one
`retryFunction` run, retries included) is active at any time. -/
theorem c6_single_flight_amended (oracle : Nat → Except E T) (acts : List Action)
    (cfg : Config T E) (h : SafeRun oracle initConfig acts cfg) :
    cfg.inflight.length ≤ 1 := by
  have hinv := safeRun_inv oracle initConfig cfg acts h inv_initConfig
  match hstate : cfg.initState with
  | InitState.NOT_INITIALIZED =>
    obtain ⟨_, hq⟩ := hinv.not_init hstate
    simp [hq]
  | InitState.PENDING =>
    obtain ⟨id, att, _, hq⟩ := hinv.pending hstate
    simp [hq]
  | InitState.INITIALIZED =>
    obtain ⟨_, _, _, hq, _⟩ := hinv.initialized hstate
    simp [hq]

/-- Witness for the amended C6 on a concrete safe execution that does include
a `reset()` (invoked while nothing is in flight). -/
theorem c6_single_flight_amended_witness :
    (run okOracle initConfig
      [Action.call 0, Action.complete 0, Action.reset, Action.call 1]).inflight.length ≤ 1 :=
  c6_single_flight_amended okOracle
    [Action.call 0, Action.complete 0, Action.reset, Action.call 1]
    (run okOracle initConfig [Action.call 0, Action.complete 0, Action.reset, Action.call 1])
    (SafeRun.call _ _ 0 _ (SafeRun.complete _ _ 0 _ (SafeRun.reset _ _ _ (by decide)
      (SafeRun.call _ _ 1 _ (SafeRun.nil _)))))

/-- C7 as stated is false on the code: after an attempt is detached by
`reset()` and a second attempt succeeds, the watcher sits in `INITIALIZED`;
when the stale first attempt then exhausts its retries, its `.catch` handler
moves the state from `INITIALIZED` back to `NOT_INITIALIZED` — a transition
out of `INITIALIZED` caused by a producer completion, not by `reset()`. -/
theorem c7_counterexample :
    (run mixedOracle initConfig
        [Action.call 0, Action.reset, Action.call 1, Action.complete 1,
         Action.complete 0, Action.complete 0]).initState = InitState.INITIALIZED ∧
    (step mixedOracle
        (run mixedOracle initConfig
          [Action.call 0, Action.reset, Action.call 1, Action.complete 1,
           Action.complete 0, Action.complete 0])
        (Action.complete 0)).initState = InitState.NOT_INITIALIZED := by
  decide

/-- C7 amended: in every execution in which `reset()` is only invoked while no
attempt is in flight, every step moves `initState` only along the claimed
edges: it leaves the state unchanged, or moves `NOT_INITIALIZED → PENDING` on
a call, `PENDING → INITIALIZED` on a successful completion,
`PENDING → NOT_INITIALIZED` on a completion that exhausts the retries (never
on success), or lands in `NOT_INITIALIZED` by `reset()`; in particular no step
other than `reset()` leaves `INITIALIZED`. -/
theorem c7_transitions_amended (oracle : Nat → Except E T) (acts : List Action)
    (cfg : Config T E) (a : Action) (h : SafeRun oracle initConfig acts cfg) :
    ((step oracle cfg a).initState = cfg.initState) ∨
    (cfg.initState = InitState.NOT_INITIALIZED ∧
      (step oracle cfg a).initState = InitState.PENDING ∧ ∃ c, a = Action.call c) ∨
    (cfg.initState = InitState.PENDING ∧
      (step oracle cfg a).initState = InitState.INITIALIZED ∧
      ∃ id att v, a = Action.complete id ∧ cfg.inflight.lookup id = some att ∧
        oracle att.awaiting = Except.ok v) ∨
    (cfg.initState = InitState.PENDING ∧
      (step oracle cfg a).initState = InitState.NOT_INITIALIZED ∧
      ∃ id att e, a = Action.complete id ∧ cfg.inflight.lookup id = some att ∧
        ¬ att.attemptNum < 3 ∧ oracle att.awaiting = Except.error e) ∨
    (a = Action.reset ∧ (step oracle cfg a).initState = InitState.NOT_INITIALIZED) := by
  have hinv := safeRun_inv oracle initConfig cfg acts h inv_initConfig
  match a with
  | Action.reset =>
    exact Or.inr (Or.inr (Or.inr (Or.inr ⟨rfl, rfl⟩)))
  | Action.call c =>
    by_cases hs : cfg.initState = InitState.NOT_INITIALIZED
    · refine Or.inr (Or.inl ⟨hs, ?_, c, rfl⟩)
      show (InitWatcher.initializeFn cfg c).initState = InitState.PENDING
      rw [initializeFn_start cfg c hs]
    · refine Or.inl ?_
      show (InitWatcher.initializeFn cfg c).initState = cfg.initState
      rw [initializeFn_join cfg c hs]
  | Action.complete id =>
    match hl : cfg.inflight.lookup id with
    | none =>
      refine Or.inl ?_
      show (completeStep oracle cfg id).initState = cfg.initState
      rw [completeStep_none oracle cfg id hl]
    | some att =>
      have hs : cfg.initState = InitState.PENDING :=
        pending_of_inflight_lookup cfg id att hinv hl
      match hor : oracle att.awaiting with
      | Except.ok v =>
        refine Or.inr (Or.inr (Or.inl ⟨hs, ?_, id, att, v, rfl, hl, hor⟩))
        show (completeStep oracle cfg id).initState = InitState.INITIALIZED
        rw [completeStep_ok oracle cfg id att v hl hor]
      | Except.error e =>
        by_cases hatt : att.attemptNum < 3
        · refine Or.inl ?_
          show (completeStep oracle cfg id).initState = cfg.initState
          rw [completeStep_retry oracle cfg id att e hl hor hatt]
        · refine Or.inr (Or.inr (Or.inr (Or.inl ⟨hs, ?_, id, att, e, rfl, hl, hatt, hor⟩)))
          show (completeStep oracle cfg id).initState = InitState.NOT_INITIALIZED
          rw [completeStep_exhaust oracle cfg id att e hl hor hatt]

/-- Witness for the amended C7: a successful completion taken from the
`PENDING` configuration reached by one call. -/
theorem c7_transitions_amended_witness :
    ((step okOracle (run okOracle initConfig [Action.call 0])
        (Action.complete 0)).initState
      = (run okOracle initConfig [Action.call 0]).initState) ∨
    ((run okOracle initConfig [Action.call 0]).initState = InitState.NOT_INITIALIZED ∧
      (step okOracle (run okOracle initConfig [Action.call 0])
          (Action.complete 0)).initState = InitState.PENDING ∧
      ∃ c, Action.complete 0 = Action.call c) ∨
    ((run okOracle initConfig [Action.call 0]).initState = InitState.PENDING ∧
      (step okOracle (run okOracle initConfig [Action.call 0])
          (Action.complete 0)).initState = InitState.INITIALIZED ∧
      ∃ id att v, Action.complete 0 = Action.complete id ∧
        (run okOracle initConfig [Action.call 0]).inflight.lookup id = some att ∧
        okOracle att.awaiting = Except.ok v) ∨
    ((run okOracle initConfig [Action.call 0]).initState = InitState.PENDING ∧
      (step okOracle (run okOracle initConfig [Action.call 0])
          (Action.complete 0)).initState = InitState.NOT_INITIALIZED ∧
      ∃ id att e, Action.complete 0 = Action.complete id ∧
        (run okOracle initConfig [Action.call 0]).inflight.lookup id = some att ∧
        ¬ att.attemptNum < 3 ∧ okOracle att.awaiting = Except.error e) ∨
    (Action.complete 0 = Action.reset ∧
      (step okOracle (run okOracle initConfig [Action.call 0])
          (Action.complete 0)).initState = InitState.NOT_INITIALIZED) :=
  c7_transitions_amended okOracle [Action.call 0]
    (run okOracle initConfig [Action.call 0]) (Action.complete 0)
    (SafeRun.call _ _ 0 _ (SafeRun.nil _))

/-- C10: `retryFunction(func, retries)` (entered, as in the source, with
`currentAttempt = 1`) always invokes `func` at least once.  Against an
always-failing producer: for every `retries ≤ 1` — including 0 and negative
values — `func` is invoked exactly once (the returned next invocation index is
1) and the single attempt's error is thrown; for every `retries = n ≥ 1`,
`func` is invoked exactly `n` times and the `n`-th invocation's error (index
`n - 1`, counting from 0) is thrown. -/
theorem c10_retry_invocation_counts (func : Nat → Except E T) (es : Nat → E)
    (hf : ∀ i, func i = Except.error (es i)) :
    (∀ retries : Int, retries ≤ 1 →
      InitWatcher.retryFunction func retries 1 0 = (Except.error (es 0), 1)) ∧
    (∀ n : Nat, 1 ≤ n →
      InitWatcher.retryFunction func (n : Int) 1 0
        = (Except.error (es (n - 1)), n)) := by
  constructor
  · intro retries hr
    have hk : (retries - 1).toNat = 0 := by omega
    simpa using retryFunction_always_fails func es hf 0 retries 1 0 hk
  · intro n hn
    have hk : ((n : Int) - 1).toNat = n - 1 := by omega
    rw [retryFunction_always_fails func es hf (n - 1) (n : Int) 1 0 hk]
    have h1 : 0 + (n - 1) = n - 1 := by omega
    have h2 : n - 1 + 1 = n := by omega
    rw [h1, h2]

/-- Witness for C10: the always-failing producer at `retries = -5`, `0` and
`4`. -/
theorem c10_retry_invocation_counts_witness :
    (∀ i, failOracle i = Except.error i) ∧
    InitWatcher.retryFunction failOracle (-5) 1 0 = (Except.error 0, 1) ∧
    InitWatcher.retryFunction failOracle 0 1 0 = (Except.error 0, 1) ∧
    InitWatcher.retryFunction failOracle 4 1 0 = (Except.error 3, 4) :=
  ⟨fun _ => rfl,
    (c10_retry_invocation_counts failOracle id (fun _ => rfl)).1 (-5) (by norm_num),
    (c10_retry_invocation_counts failOracle id (fun _ => rfl)).1 0 (by norm_num),
    by simpa using
      (c10_retry_invocation_counts failOracle id (fun _ => rfl)).2 4 (by norm_num)⟩

end Ossapp
